import Mathlib

/-!
Verification of the face-detection pipeline in this repository against its
natural-language specification.

The repository has two variants of the same React-Native component:
`src/App.tsx` and the one in `src/unnamed/part_000`.  The definitions below
are a shallow embedding of the code of those files:

* the canvas drawing context is modelled as a command trace (`CanvasCmd`)
  together with an immediate-mode surface semantics (`applyCmd`);
* `fn_drawRect`, `fn_estimateBlazeFace`, `fn_initSetting` and the
  `loop` closure of `fn_onReadyTensorCamera` are translated function by
  function, with the external collaborators (camera permission, backend
  init, `blazeface.load`, `estimateFaces`) abstracted as explicit inputs;
* the `setTimeout` / `requestAnimationFrame` chaining of the loop is given
  a timed semantics (`cycleStart` and friends).
-/

/-- `CAMERA_SIZE.width` in src/App.tsx line 37 (also part_000 line 33). -/
def cameraWidth : Nat := 320

/-- `CAMERA_SIZE.height` in src/App.tsx line 37 (also part_000 line 33). -/
def cameraHeight : Nat := 480

/-- A bounding-box prediction as consumed by `fn_drawRect`:
`topLeft` and `bottomRight` corners in pixel coordinates. -/
structure Detection where
  topLeft : Int × Int
  bottomRight : Int × Int
deriving DecidableEq, Repr

/-- Arguments of a `ctx.strokeRect(x, y, w, h)` call. -/
structure Rect where
  x : Int
  y : Int
  w : Int
  h : Int
deriving DecidableEq, Repr

/-- The rectangle `fn_drawRect` derives from one prediction
(src/App.tsx lines 141-143): origin `topLeft`, size `bottomRight - topLeft`. -/
def rectOf (d : Detection) : Rect :=
  { x := d.topLeft.1, y := d.topLeft.2,
    w := d.bottomRight.1 - d.topLeft.1, h := d.bottomRight.2 - d.topLeft.2 }

/-- One operation performed on the canvas / its 2d context. -/
inductive CanvasCmd where
  | setHeight (h : Nat)
  | setWidth (w : Nat)
  | setStrokeStyle (style : String)
  | setLineWidth (n : Nat)
  | strokeRect (r : Rect)
  | clearRect (x y w h : Nat)
deriving DecidableEq, Repr

/-- A rectangle present on the surface, with the stroke attributes it was
drawn with. -/
structure DrawnRect where
  rect : Rect
  style : String
  lineWidth : Nat
deriving DecidableEq, Repr

/-- Observable state of the overlay drawing surface: its declared size,
current stroke attributes, and the rectangles currently visible. -/
structure Surface where
  width : Nat
  height : Nat
  strokeStyle : String
  lineWidth : Nat
  content : List DrawnRect
deriving DecidableEq, Repr

/-- Immediate-mode semantics of one canvas operation.  Assigning `width` or
`height` resets the canvas content (HTML-canvas behaviour); `clearRect`
erases everything when the cleared region covers the whole surface. -/
def applyCmd (s : Surface) : CanvasCmd → Surface
  | CanvasCmd.setHeight h => { s with height := h, content := [] }
  | CanvasCmd.setWidth w => { s with width := w, content := [] }
  | CanvasCmd.setStrokeStyle st => { s with strokeStyle := st }
  | CanvasCmd.setLineWidth n => { s with lineWidth := n }
  | CanvasCmd.strokeRect r =>
      { s with content :=
          s.content ++ [{ rect := r, style := s.strokeStyle, lineWidth := s.lineWidth }] }
  | CanvasCmd.clearRect x y w h =>
      if x = 0 ∧ y = 0 ∧ s.width ≤ w ∧ s.height ≤ h then { s with content := [] } else s

/-- Run a command trace against a surface. -/
def applyCmds (cmds : List CanvasCmd) (s : Surface) : Surface :=
  cmds.foldl applyCmd s

/-- Body of the `for` loop of `fn_drawRect` (src/App.tsx lines 140-152,
identically part_000 lines 116-128): per prediction it assigns
`canvas.height`, `canvas.width`, `strokeStyle`, `lineWidth` and then calls
`strokeRect`. -/
def drawRectCmds : List Detection → List CanvasCmd
  | [] => []
  | p :: ps =>
      CanvasCmd.setHeight cameraHeight :: CanvasCmd.setWidth cameraWidth ::
      CanvasCmd.setStrokeStyle "red" :: CanvasCmd.setLineWidth 6 ::
      CanvasCmd.strokeRect (rectOf p) :: drawRectCmds ps

/-- `fn_drawRect` (src/App.tsx lines 134-154): a no-op when the canvas ref
is not mounted, otherwise the per-prediction drawing loop. -/
def fn_drawRect (canvasMounted : Bool) (predictions : List Detection) : List CanvasCmd :=
  if canvasMounted then drawRectCmds predictions else []

/-- The clearing call of the empty-prediction branch
(src/App.tsx line 117): `clearRect(0, 0, CAMERA_SIZE.width, CAMERA_SIZE.height)`. -/
def clearCmd : CanvasCmd := CanvasCmd.clearRect 0 0 cameraWidth cameraHeight

/-- Outcome of the awaited `estimateFaces` call: either it resolves with a
prediction list, or it rejects. -/
inductive EstimateOutcome where
  | ok (predictions : List Detection)
  | fail (msg : String)
deriving Repr

/-- What one call of `fn_estimateBlazeFace` does: the canvas commands it
issues, how many times it disposes the input tensor, and its settled value
(`Except.error` models a rejected promise). -/
structure EstimateRun where
  cmds : List CanvasCmd
  disposeCount : Nat
  result : Except String Bool
deriving Repr

/-- `fn_estimateBlazeFace` of src/App.tsx (lines 100-128), for a cycle whose
tensor was actually produced.  `modelLoaded` is whether
`initSetting.blazefaceModel` is non-null.  When the guard on line 105 holds,
the `estimateFaces` outcome drives the two branches; the `.catch` on
line 121 re-throws, skipping the `dispose()` on line 126.  When the guard
fails the body is skipped and the function still disposes and returns the
initial `_isEstimate = false`.  Note line 113 assigns `false` in the
detection branch as well. -/
def fn_estimateBlazeFace (modelLoaded canvasMounted : Bool)
    (outcome : EstimateOutcome) : EstimateRun :=
  if modelLoaded then
    match outcome with
    | EstimateOutcome.ok predictions =>
        if predictions.length > 0 then
          { cmds := fn_drawRect canvasMounted predictions
            disposeCount := 1
            result := Except.ok false }
        else
          { cmds := if canvasMounted then [clearCmd] else []
            disposeCount := 1
            result := Except.ok false }
    | EstimateOutcome.fail msg =>
        { cmds := [], disposeCount := 0, result := Except.error msg }
  else
    { cmds := [], disposeCount := 1, result := Except.ok false }

/-- Observable events of one iteration of the `loop` closure inside
`fn_onReadyTensorCamera` (src/App.tsx lines 167-185). -/
inductive CycleEvent where
  | estimateCall
  | logSuccess
  | logError
  | disposeInTimeout
  | scheduleLoop
deriving DecidableEq, Repr

/-- One iteration of the App.tsx loop: await `fn_estimateBlazeFace`, log via
`.then` or `.catch` (both swallow the outcome), then unconditionally
`setTimeout` a callback that disposes the tensor again and calls
`requestAnimationFrame(loop)`. -/
def appLoopCycle (modelLoaded canvasMounted : Bool)
    (outcome : EstimateOutcome) : List CycleEvent :=
  (CycleEvent.estimateCall ::
    (match (fn_estimateBlazeFace modelLoaded canvasMounted outcome).result with
     | Except.ok _ => [CycleEvent.logSuccess]
     | Except.error _ => [CycleEvent.logError])) ++
  [CycleEvent.disposeInTimeout, CycleEvent.scheduleLoop]

/-- Total number of `dispose()` calls on the cycle's tensor by the time the
cycle's `setTimeout` continuation has run: the ones inside
`fn_estimateBlazeFace` plus the unconditional one on line 182. -/
def loopCycleDisposeCount (modelLoaded canvasMounted : Bool)
    (outcome : EstimateOutcome) : Nat :=
  (fn_estimateBlazeFace modelLoaded canvasMounted outcome).disposeCount + 1

/-- Event trace of `n` consecutive cycles whose `estimateFaces` call
rejects every time. -/
def consecutiveFailureTrace : Nat → List CycleEvent
  | 0 => []
  | n + 1 =>
      appLoopCycle true true (EstimateOutcome.fail "estimate error") ++
        consecutiveFailureTrace n

/-- Result of `Camera.requestCameraPermissionsAsync()` as compared on
src/App.tsx line 64 (`status !== 'granted'`). -/
inductive PermissionStatus where
  | granted
  | denied
  | undetermined
deriving DecidableEq, Repr

/-- The three failure reasons of the initialization sequence, one per
`throw` site of `fn_initSetting` (src/App.tsx lines 65, 76, 85). -/
inductive InitError where
  | PermissionDenied
  | RuntimeUnavailable
  | ModelLoadFailed
deriving DecidableEq, Repr

/-- The awaited steps of `fn_initSetting`, in source order. -/
inductive InitStep where
  | requestPermission
  | setBackend
  | loadModel
  | setState
deriving DecidableEq, Repr

/-- The full successful step sequence of `fn_initSetting`. -/
def initOrder : List InitStep :=
  [InitStep.requestPermission, InitStep.setBackend, InitStep.loadModel, InitStep.setState]

/-- The `LoadModel` component state of src/App.tsx lines 13-16 and 39-42;
`blazefaceModelLoaded` is whether `blazefaceModel` is non-null. -/
structure LoadModel where
  isTfReady : Bool
  blazefaceModelLoaded : Bool
deriving DecidableEq, Repr

/-- The initial `useState` value (src/App.tsx lines 39-42). -/
def initialLoadModel : LoadModel :=
  { isTfReady := false, blazefaceModelLoaded := false }

/-- Responses of the three external collaborators awaited by
`fn_initSetting`. -/
structure InitEnv where
  permissionStatus : PermissionStatus
  backendOk : Bool
  modelLoadOk : Bool

/-- `fn_initSetting` (src/App.tsx lines 57-93): returns the steps actually
performed together with the settled value — each failing step throws, so a
failure prevents every later step, and `setInitSetting` runs only on full
success. -/
def fn_initSetting (env : InitEnv) : List InitStep × Except InitError LoadModel :=
  if env.permissionStatus ≠ PermissionStatus.granted then
    ([InitStep.requestPermission], Except.error InitError.PermissionDenied)
  else if !env.backendOk then
    ([InitStep.requestPermission, InitStep.setBackend],
      Except.error InitError.RuntimeUnavailable)
  else if !env.modelLoadOk then
    ([InitStep.requestPermission, InitStep.setBackend, InitStep.loadModel],
      Except.error InitError.ModelLoadFailed)
  else
    (initOrder, Except.ok { isTfReady := true, blazefaceModelLoaded := true })

/-- Component state after `fn_initSetting` settles: unchanged unless the
`setInitSetting` call on lines 89-92 was reached. -/
def stateAfterInit (env : InitEnv) : LoadModel :=
  match (fn_initSetting env).2 with
  | Except.ok m => m
  | Except.error _ => initialLoadModel

/-- The mount condition of the `TensorCamera` + loop (src/App.tsx line 209):
`initSetting.isTfReady && initSetting.blazefaceModel`.  Only when it holds
does `onReady` fire and the detection loop run. -/
def isRunning (m : LoadModel) : Bool :=
  m.isTfReady && m.blazefaceModelLoaded

/-- The `setTimeout` delay of the loop (src/App.tsx line 184). -/
def INTER_CYCLE_DELAY : Nat := 2000

/-- Durations chosen by the environment: `inferDur n` is how long cycle
`n`'s awaited `fn_estimateBlazeFace` takes, `rafWait n` how long after the
timer fires the `requestAnimationFrame` callback runs. -/
structure LoopEnv where
  inferDur : Nat → Nat
  rafWait : Nat → Nat

/-- Start instant of cycle `n` of the loop (src/App.tsx lines 167-186):
cycle 0 starts at the initial `loop()` call; cycle `n+1` starts when cycle
`n`'s await has settled, its 2000-unit timer has fired, and the
animation-frame callback has run. -/
def cycleStart (env : LoopEnv) : Nat → Nat
  | 0 => 0
  | n + 1 => cycleStart env n + env.inferDur n + INTER_CYCLE_DELAY + env.rafWait n

/-- Instant at which cycle `n`'s awaited estimate settles (the cycle body
is done; only its timer continuation remains). -/
def cycleInferEnd (env : LoopEnv) (n : Nat) : Nat :=
  cycleStart env n + env.inferDur n

/-- Instant at which cycle `n`'s `setTimeout` callback fires. -/
def cycleTimerFire (env : LoopEnv) (n : Nat) : Nat :=
  cycleInferEnd env n + INTER_CYCLE_DELAY

/-- Instant at which cycle `n`'s `requestAnimationFrame` callback runs and
invokes `loop` again. -/
def cycleRafFire (env : LoopEnv) (n : Nat) : Nat :=
  cycleTimerFire env n + env.rafWait n

/-- Observable events of the part_000 variant of `fn_estimateBlazeFace`. -/
inductive Part000Event where
  | loadModel
  | estimateFaces
  | drawRect
  | clearCanvas
deriving DecidableEq, Repr

/-- `fn_estimateBlazeFace` of src/unnamed/part_000 (lines 77-104): when the
tensor exists it awaits a fresh `blazeface.load()` (line 83), then
`estimateFaces` (line 86), then draws or clears; the returned boolean is
`true` exactly on the non-empty branch.  It reads no stored model handle,
so its inputs are only the tensor, the prediction list and the canvas ref. -/
def part000_estimateBlazeFace (tensorPresent : Bool)
    (predictions : List Detection) (canvasMounted : Bool) :
    List Part000Event × Bool :=
  if tensorPresent then
    if predictions.length > 0 then
      ([Part000Event.loadModel, Part000Event.estimateFaces, Part000Event.drawRect], true)
    else
      ([Part000Event.loadModel, Part000Event.estimateFaces] ++
        (if canvasMounted then [Part000Event.clearCanvas] else []), false)
  else
    ([], false)

/-- Rendering a prediction list against a mounted surface. -/
def renderDetections (predictions : List Detection) (s : Surface) : Surface :=
  applyCmds (fn_drawRect true predictions) s

/-- The explicit clear operation of the code: `clearRect` over the whole
configured camera area (src/App.tsx line 117). -/
def clearSurface (s : Surface) : Surface :=
  applyCmd s clearCmd

/-- The `strokeRect` calls of a command trace, in order. -/
def strokeRectsOf : List CanvasCmd → List Rect
  | [] => []
  | c :: rest =>
      match c with
      | CanvasCmd.strokeRect r => r :: strokeRectsOf rest
      | _ => strokeRectsOf rest

/-- The `strokeStyle` assignments of a command trace, in order. -/
def strokeStylesOf : List CanvasCmd → List String
  | [] => []
  | c :: rest =>
      match c with
      | CanvasCmd.setStrokeStyle st => st :: strokeStylesOf rest
      | _ => strokeStylesOf rest

/-- The detection used by the spec's concrete test scenario. -/
def exampleDetection : Detection :=
  { topLeft := (10, 10), bottomRight := (50, 60) }

/-- A surface matching the configured camera size with one rectangle
already drawn on it. -/
def exampleSurface : Surface :=
  { width := cameraWidth, height := cameraHeight, strokeStyle := "red",
    lineWidth := 6,
    content := [{ rect := rectOf exampleDetection, style := "red", lineWidth := 6 }] }

/-- A sample timing environment for the loop. -/
def testLoopEnv : LoopEnv :=
  { inferDur := fun _ => 5, rafWait := fun _ => 7 }

/-- An environment whose permission request is denied and whose other
collaborators would succeed. -/
def envDenied : InitEnv :=
  { permissionStatus := PermissionStatus.denied, backendOk := true, modelLoadOk := true }

/-- Observable events of the part_000 initialization effect
(src/unnamed/part_000 lines 38-70). -/
inductive Part000InitEvent where
  | requestPermission
  | logDenied
  | tfReady
  | setIsTfReadyTrue
  | logTfError
deriving DecidableEq, Repr

/-- Responses of the two collaborators awaited by the part_000
initialization effect. -/
structure Part000InitEnv where
  permissionStatus : PermissionStatus
  tfReadyOk : Bool

/-- `fn_requestPermisison` of src/unnamed/part_000 (lines 49-55): it awaits
the permission request and, when the status is not granted, only logs and
returns — it never throws, so its promise resolves on denial too and the
caller cannot observe the outcome. -/
def fn_requestPermisison (status : PermissionStatus) : List Part000InitEvent :=
  if status ≠ PermissionStatus.granted then
    [Part000InitEvent.requestPermission, Part000InitEvent.logDenied]
  else
    [Part000InitEvent.requestPermission]

/-- `fn_tfReady` of src/unnamed/part_000 (lines 61-70): awaits `tf.ready()`
and sets `isTfReady` to `true` on success; its `.catch` only logs, so the
promise resolves either way.  Returns the trace and the resulting
`isTfReady` flag. -/
def fn_tfReady (tfReadyOk : Bool) : List Part000InitEvent × Bool :=
  if tfReadyOk then
    ([Part000InitEvent.tfReady, Part000InitEvent.setIsTfReadyTrue], true)
  else
    ([Part000InitEvent.tfReady, Part000InitEvent.logTfError], false)

/-- The part_000 `useEffect` body (lines 38-43): awaits
`fn_requestPermisison`, then `fn_tfReady`, unconditionally — there is no
model-load step and no error propagation between the two.  Returns the
combined trace and the final `isTfReady` state. -/
def part000_initEffect (env : Part000InitEnv) : List Part000InitEvent × Bool :=
  (fn_requestPermisison env.permissionStatus ++ (fn_tfReady env.tfReadyOk).1,
    (fn_tfReady env.tfReadyOk).2)

/-- The mount condition of the part_000 `TensorCamera` + loop
(src/unnamed/part_000 line 183): just `isTfReady`. -/
def part000_isRunning (isTfReady : Bool) : Bool := isTfReady

/-- A part_000 environment with the permission denied but `tf.ready()`
succeeding. -/
def part000EnvDenied : Part000InitEnv :=
  { permissionStatus := PermissionStatus.denied, tfReadyOk := true }

/-! ## Helper lemmas -/

/-- The `strokeRect` calls issued by the drawing loop are exactly the
per-prediction rectangles, in list order. -/
lemma strokeRectsOf_drawRectCmds (ps : List Detection) :
    strokeRectsOf (drawRectCmds ps) = ps.map rectOf := by
  induction ps with
  | nil => rfl
  | cons p ps ih =>
      show rectOf p :: strokeRectsOf (drawRectCmds ps) = rectOf p :: ps.map rectOf
      rw [ih]

/-- The drawing loop sets the stroke style to `"red"` once per prediction. -/
lemma strokeStylesOf_drawRectCmds (ps : List Detection) :
    strokeStylesOf (drawRectCmds ps) = List.replicate ps.length "red" := by
  induction ps with
  | nil => rfl
  | cons p ps ih =>
      show "red" :: strokeStylesOf (drawRectCmds ps) = "red" :: List.replicate ps.length "red"
      rw [ih]

/-- Whenever `estimateFaces` resolves, `fn_estimateBlazeFace` resolves with
`false`, whatever the prediction list is. -/
lemma result_estimate_ok (ml cm : Bool) (ps : List Detection) :
    (fn_estimateBlazeFace ml cm (EstimateOutcome.ok ps)).result = Except.ok false := by
  cases ml
  · rfl
  · by_cases h : ps.length > 0 <;> simp [fn_estimateBlazeFace, h]

/-- With the model loaded, a rejected `estimateFaces` rejects the whole
call. -/
lemma result_estimate_fail (cm : Bool) (msg : String) :
    (fn_estimateBlazeFace true cm (EstimateOutcome.fail msg)).result =
      Except.error msg := rfl

/-- The in-function dispose happens exactly once whenever `estimateFaces`
resolves. -/
lemma disposeCount_estimate_ok (cm : Bool) (ps : List Detection) :
    (fn_estimateBlazeFace true cm (EstimateOutcome.ok ps)).disposeCount = 1 := by
  by_cases h : ps.length > 0 <;> simp [fn_estimateBlazeFace, h]

/-- Trace of a cycle whose estimate resolves. -/
lemma appLoopCycle_ok (ml cm : Bool) (ps : List Detection) :
    appLoopCycle ml cm (EstimateOutcome.ok ps) =
      [CycleEvent.estimateCall, CycleEvent.logSuccess,
       CycleEvent.disposeInTimeout, CycleEvent.scheduleLoop] := by
  unfold appLoopCycle
  rw [result_estimate_ok]
  rfl

/-- Trace of a cycle whose estimate rejects (model loaded). -/
lemma appLoopCycle_fail_true (cm : Bool) (msg : String) :
    appLoopCycle true cm (EstimateOutcome.fail msg) =
      [CycleEvent.estimateCall, CycleEvent.logError,
       CycleEvent.disposeInTimeout, CycleEvent.scheduleLoop] := rfl

/-- With the model missing the guard skips the estimate, so the `.then`
branch logs. -/
lemma appLoopCycle_fail_false (cm : Bool) (msg : String) :
    appLoopCycle false cm (EstimateOutcome.fail msg) =
      [CycleEvent.estimateCall, CycleEvent.logSuccess,
       CycleEvent.disposeInTimeout, CycleEvent.scheduleLoop] := rfl

/-- Every cycle, failing or not, schedules exactly one next cycle and ends
by doing so. -/
lemma appLoopCycle_schedules (ml cm : Bool) (o : EstimateOutcome) :
    (appLoopCycle ml cm o).count CycleEvent.scheduleLoop = 1 ∧
    (appLoopCycle ml cm o).getLast? = some CycleEvent.scheduleLoop := by
  cases o with
  | ok ps => rw [appLoopCycle_ok] ; exact ⟨by decide, by decide⟩
  | fail msg =>
      cases ml
      · rw [appLoopCycle_fail_false] ; exact ⟨by decide, by decide⟩
      · rw [appLoopCycle_fail_true] ; exact ⟨by decide, by decide⟩

/-- Each of `n` consecutive failing cycles still schedules its successor. -/
lemma count_scheduleLoop_failureTrace (n : Nat) :
    (consecutiveFailureTrace n).count CycleEvent.scheduleLoop = n := by
  induction n with
  | zero => rfl
  | succ k ih =>
      show (appLoopCycle true true (EstimateOutcome.fail "estimate error") ++
        consecutiveFailureTrace k).count CycleEvent.scheduleLoop = k + 1
      rw [List.count_append, ih, appLoopCycle_fail_true]
      have h4 : ([CycleEvent.estimateCall, CycleEvent.logError,
          CycleEvent.disposeInTimeout,
          CycleEvent.scheduleLoop]).count CycleEvent.scheduleLoop = 1 := by decide
      rw [h4]
      omega

/-- The loop start instants are monotone in the cycle index. -/
lemma cycleStart_le_succ (env : LoopEnv) (n : Nat) :
    cycleStart env n ≤ cycleStart env (n + 1) := by
  show cycleStart env n ≤
    cycleStart env n + env.inferDur n + INTER_CYCLE_DELAY + env.rafWait n
  omega

/-- Monotonicity of `cycleStart`. -/
lemma cycleStart_mono (env : LoopEnv) {m n : Nat} (h : m ≤ n) :
    cycleStart env m ≤ cycleStart env n := by
  induction h with
  | refl => exact le_refl _
  | step h2 ih => exact le_trans ih (cycleStart_le_succ env _)

/-- A cycle's awaited body ends strictly before the next cycle starts. -/
lemma cycleInferEnd_lt_next (env : LoopEnv) (n : Nat) :
    cycleInferEnd env n < cycleStart env (n + 1) := by
  show cycleStart env n + env.inferDur n <
    cycleStart env n + env.inferDur n + 2000 + env.rafWait n
  omega

/-! ## Claims -/

/-- Claim C1, counterexample: on a normal cycle (model loaded, one face
found), the tensor acquired at the start of the cycle is disposed twice by
the time the cycle's `setTimeout` continuation has run — once on
src/App.tsx line 126 and once on line 182 — so it is not released exactly
once. -/
theorem claim_C1_counterexample :
    loopCycleDisposeCount true true (EstimateOutcome.ok [exampleDetection]) ≠ 1 := by
  decide

/-- Claim C1, amended: every cycle releases its tensor at least once on
every code path, but not exactly once: the path where `estimateFaces`
rejects disposes it exactly once (the in-function dispose is skipped, the
timeout one runs), while the normal-completion and empty-detection paths —
and the path where the model is not yet loaded — dispose it exactly
twice. -/
theorem claim_C1_amended :
    ∀ (modelLoaded canvasMounted : Bool) (outcome : EstimateOutcome),
      1 ≤ loopCycleDisposeCount modelLoaded canvasMounted outcome ∧
      loopCycleDisposeCount modelLoaded canvasMounted outcome =
        (match modelLoaded, outcome with
         | true, EstimateOutcome.fail _ => 1
         | _, _ => 2) := by
  intro ml cm o
  cases ml with
  | false => cases o <;> exact ⟨Nat.le_succ 1, rfl⟩
  | true =>
      cases o with
      | ok ps =>
          have h := disposeCount_estimate_ok cm ps
          unfold loopCycleDisposeCount
          rw [h]
          exact ⟨Nat.le_succ 1, rfl⟩
      | fail msg => exact ⟨Nat.le.refl, rfl⟩

/-- Claim C2, counterexample: in the part_000 variant a denied permission
is not terminal and surfaces nothing.  `fn_requestPermisison` only logs the
denial and resolves, the `useEffect` goes on to `fn_tfReady`, which sets
`isTfReady = true` when `tf.ready()` succeeds, and the mount condition on
part_000 line 183 then holds — the camera and the detection loop start
despite the denial, and no permission-denied reason reaches any caller. -/
theorem claim_C2_counterexample :
    (part000_initEffect part000EnvDenied).1 =
      [Part000InitEvent.requestPermission, Part000InitEvent.logDenied,
       Part000InitEvent.tfReady, Part000InitEvent.setIsTfReadyTrue] ∧
    (part000_initEffect part000EnvDenied).2 = true ∧
    part000_isRunning (part000_initEffect part000EnvDenied).2 = true :=
  ⟨rfl, rfl, rfl⟩

/-- Claim C2, amended: in the App.tsx variant `fn_initSetting` performs
permission request, backend init and model load in strict order (its step
trace is always a prefix of the full ordered sequence), and a denied
permission is terminal: the settled value is the permission error, the
component state is never written, and the `Running` mount condition is
never reached.  In the part_000 variant, however, denial is only logged:
initialization continues and the resulting `isTfReady` flag — the whole
mount condition — depends only on whether `tf.ready()` succeeds. -/
theorem claim_C2_amended (env : InitEnv)
    (h : env.permissionStatus ≠ PermissionStatus.granted) :
    (∀ e : InitEnv, (fn_initSetting e).1 = initOrder.take (fn_initSetting e).1.length) ∧
    (fn_initSetting env).2 = Except.error InitError.PermissionDenied ∧
    stateAfterInit env = initialLoadModel ∧
    isRunning (stateAfterInit env) = false ∧
    (∀ e : Part000InitEnv, (part000_initEffect e).2 = e.tfReadyOk) := by
  have hden : fn_initSetting env =
      ([InitStep.requestPermission], Except.error InitError.PermissionDenied) := by
    unfold fn_initSetting
    rw [if_pos h]
  refine ⟨?_, ?_, ?_, ?_, ?_⟩
  · intro e
    rcases e with ⟨p, b, m⟩
    cases p <;> cases b <;> cases m <;> rfl
  · rw [hden]
  · unfold stateAfterInit
    rw [hden]
  · unfold stateAfterInit
    rw [hden]
    rfl
  · intro e
    rcases e with ⟨p, t⟩
    cases t <;> rfl

/-- Witness for the amended claim C2 at a concrete denied App.tsx
environment. -/
theorem claim_C2_amended_witness :
    (fn_initSetting envDenied).2 = Except.error InitError.PermissionDenied ∧
    isRunning (stateAfterInit envDenied) = false :=
  ⟨(claim_C2_amended envDenied (by decide)).2.1,
   (claim_C2_amended envDenied (by decide)).2.2.2.1⟩

/-- Claim C3, counterexample: there is no consecutive-failure threshold at
which the scheduler stops — however many consecutive cycles reject, every
one of them still schedules the next cycle (the `.catch` on src/App.tsx
line 176 only logs, and the `setTimeout` on line 181 runs
unconditionally). -/
theorem claim_C3_counterexample :
    ¬ ∃ N : Nat, 0 < N ∧
      (consecutiveFailureTrace N).count CycleEvent.scheduleLoop < N := by
  rintro ⟨N, _, hlt⟩
  rw [count_scheduleLoop_failureTrace] at hlt
  exact lt_irrefl N hlt

/-- Claim C3, amended: a rejected cycle is logged and the loop always
schedules the next cycle; no consecutive-failure threshold exists, the
loop never halts on its own, and no cycle writes the pipeline state.
Every cycle's trace, failing or not, contains exactly one `scheduleLoop`
event and ends with it. -/
theorem claim_C3_amended :
    (∀ (modelLoaded canvasMounted : Bool) (outcome : EstimateOutcome),
      (appLoopCycle modelLoaded canvasMounted outcome).count CycleEvent.scheduleLoop = 1 ∧
      (appLoopCycle modelLoaded canvasMounted outcome).getLast? =
        some CycleEvent.scheduleLoop) ∧
    (∀ n : Nat, (consecutiveFailureTrace n).count CycleEvent.scheduleLoop = n) :=
  ⟨fun ml cm o => appLoopCycle_schedules ml cm o,
   fun n => count_scheduleLoop_failureTrace n⟩

/-- Claim C4: the loop is single-flight and self-rescheduling.  Each
cycle's awaited body finishes strictly before the next cycle starts, the
next cycle starts no earlier than the 2000-unit timer fired and exactly
when the animation-frame callback runs, and the awaited bodies of any two
distinct cycles never overlap. -/
theorem claim_C4 (env : LoopEnv) (n : Nat) :
    cycleInferEnd env n < cycleStart env (n + 1) ∧
    cycleTimerFire env n ≤ cycleStart env (n + 1) ∧
    cycleStart env (n + 1) = cycleRafFire env n ∧
    (∀ m : Nat, m < n → cycleInferEnd env m < cycleStart env n) := by
  refine ⟨cycleInferEnd_lt_next env n, ?_, rfl, ?_⟩
  · show cycleStart env n + env.inferDur n + 2000 ≤
      cycleStart env n + env.inferDur n + 2000 + env.rafWait n
    omega
  · intro m hm
    exact lt_of_lt_of_le (cycleInferEnd_lt_next env m) (cycleStart_mono env hm)

/-- Witness for claim C4 in a concrete timing environment. -/
theorem claim_C4_witness :
    cycleInferEnd testLoopEnv 0 < cycleStart testLoopEnv 1 ∧
    cycleStart testLoopEnv 1 = 2012 :=
  ⟨(claim_C4 testLoopEnv 1).2.2.2 0 (by decide), rfl⟩

/-- Claim C5, counterexample: on a surface that already shows a rectangle,
rendering the empty detection list (`fn_drawRect` with `[]`, whose `for`
loop body never runs) leaves the rectangle visible, while the explicit
clear (`clearRect` over the camera area, src/App.tsx line 117) erases it —
the two observable surface states differ. -/
theorem claim_C5_counterexample :
    (renderDetections [] exampleSurface).content ≠ (clearSurface exampleSurface).content := by
  decide

/-- Claim C5, amended: rendering the empty detection list is the identity
on the surface, not a clear; the explicit clear empties a camera-sized
surface.  The two coincide only on an already-empty surface — the code's
empty-detection branch clears via a direct `clearRect`, never via
`fn_drawRect([])`. -/
theorem claim_C5_amended :
    (∀ s : Surface, renderDetections [] s = s) ∧
    (∀ s : Surface, s.width = cameraWidth → s.height = cameraHeight →
      (clearSurface s).content = []) := by
  constructor
  · intro s
    rfl
  · intro s hw hh
    simp [clearSurface, applyCmd, clearCmd, hw, hh, cameraWidth, cameraHeight]

/-- Witness for the amended claim C5 at a concrete surface. -/
theorem claim_C5_amended_witness :
    renderDetections [] exampleSurface = exampleSurface ∧
    (clearSurface exampleSurface).content = [] :=
  ⟨claim_C5_amended.1 exampleSurface, claim_C5_amended.2 exampleSurface rfl rfl⟩

/-- Claim C6: for the single prediction with `topLeft (10,10)` and
`bottomRight (50,60)`, `fn_drawRect` resizes the canvas to the configured
camera size and then strokes exactly the one unfilled rectangle at
`(10,10)` of size `(40,50)`; in general the stroked rectangles are the
predictions' rectangles in insertion order, each drawn with the fixed
`"red"` stroke style. -/
theorem claim_C6 :
    fn_drawRect true [exampleDetection] =
      [CanvasCmd.setHeight cameraHeight, CanvasCmd.setWidth cameraWidth,
       CanvasCmd.setStrokeStyle "red", CanvasCmd.setLineWidth 6,
       CanvasCmd.strokeRect { x := 10, y := 10, w := 40, h := 50 }] ∧
    (∀ predictions : List Detection,
      strokeRectsOf (fn_drawRect true predictions) = predictions.map rectOf) ∧
    (∀ predictions : List Detection,
      strokeStylesOf (fn_drawRect true predictions) =
        List.replicate predictions.length "red") := by
  refine ⟨rfl, ?_, ?_⟩
  · intro ps
    exact strokeRectsOf_drawRectCmds ps
  · intro ps
    exact strokeStylesOf_drawRectCmds ps

/-- Claim C7: when `estimateFaces` resolves with the empty list, the cycle
issues exactly the full-area `clearRect` (no `strokeRect` at all), the
surface content afterwards is empty, and the call resolves normally. -/
theorem claim_C7 (s : Surface) (hw : s.width = cameraWidth) (hh : s.height = cameraHeight) :
    (fn_estimateBlazeFace true true (EstimateOutcome.ok [])).cmds = [clearCmd] ∧
    strokeRectsOf (fn_estimateBlazeFace true true (EstimateOutcome.ok [])).cmds = [] ∧
    (applyCmds (fn_estimateBlazeFace true true (EstimateOutcome.ok [])).cmds s).content = [] ∧
    (fn_estimateBlazeFace true true (EstimateOutcome.ok [])).result = Except.ok false := by
  refine ⟨rfl, rfl, ?_, rfl⟩
  show (applyCmd s clearCmd).content = []
  simp [applyCmd, clearCmd, hw, hh, cameraWidth, cameraHeight]

/-- Witness for claim C7 at a concrete camera-sized surface. -/
theorem claim_C7_witness :
    (applyCmds (fn_estimateBlazeFace true true (EstimateOutcome.ok [])).cmds
      exampleSurface).content = [] ∧
    (fn_estimateBlazeFace true true (EstimateOutcome.ok [])).result = Except.ok false :=
  ⟨(claim_C7 exampleSurface rfl rfl).2.2.1, (claim_C7 exampleSurface rfl rfl).2.2.2⟩

/-- Claim C8, counterexample: calling `fn_estimateBlazeFace` with no model
loaded does not reject with any not-ready error — the guard on src/App.tsx
line 105 silently skips the body, the call resolves with the no-detection
value `false`, issues no canvas command, and still disposes the tensor. -/
theorem claim_C8_counterexample :
    (fn_estimateBlazeFace false true (EstimateOutcome.ok [exampleDetection])).result =
      Except.ok false ∧
    (fn_estimateBlazeFace false true (EstimateOutcome.ok [exampleDetection])).cmds = [] ∧
    (fn_estimateBlazeFace false true (EstimateOutcome.ok [exampleDetection])).disposeCount = 1 :=
  ⟨rfl, rfl, rfl⟩

/-- Claim C8, amended: calling the estimate function before the model is
loaded silently resolves with the no-detection value `false` (no error of
any kind), draws nothing, and disposes the tensor; in the running app the
camera is only mounted after the model loads, so the path is unreachable
through the UI. -/
theorem claim_C8_amended :
    ∀ (canvasMounted : Bool) (outcome : EstimateOutcome),
      (fn_estimateBlazeFace false canvasMounted outcome).result = Except.ok false ∧
      (fn_estimateBlazeFace false canvasMounted outcome).cmds = [] ∧
      (fn_estimateBlazeFace false canvasMounted outcome).disposeCount = 1 :=
  fun _ _ => ⟨rfl, rfl, rfl⟩

/-- Claim C9: whenever its `estimateFaces` call resolves — with any
prediction list, empty or not — `fn_estimateBlazeFace` of src/App.tsx
resolves with `false` (line 113 assigns `false` even in the detection
branch), even on an input where it does stroke a rectangle. -/
theorem claim_C9 :
    (∀ (modelLoaded canvasMounted : Bool) (predictions : List Detection),
      (fn_estimateBlazeFace modelLoaded canvasMounted
        (EstimateOutcome.ok predictions)).result = Except.ok false) ∧
    strokeRectsOf (fn_estimateBlazeFace true true
      (EstimateOutcome.ok [exampleDetection])).cmds = [rectOf exampleDetection] :=
  ⟨fun ml cm ps => result_estimate_ok ml cm ps, rfl⟩

/-- Claim C10: in the part_000 variant, every call with a present tensor
performs a fresh model load and then the estimate — its event trace begins
`[loadModel, estimateFaces]` and contains exactly one load — independent of
any state, since the function reads no stored model handle. -/
theorem claim_C10 :
    (∀ (predictions : List Detection) (canvasMounted : Bool),
      (part000_estimateBlazeFace true predictions canvasMounted).1.take 2 =
        [Part000Event.loadModel, Part000Event.estimateFaces]) ∧
    (∀ (predictions : List Detection) (canvasMounted : Bool),
      (part000_estimateBlazeFace true predictions canvasMounted).1.count
        Part000Event.loadModel = 1) := by
  constructor
  · intro ps cm
    by_cases h : ps.length > 0 <;> simp [part000_estimateBlazeFace, h]
  · intro ps cm
    by_cases h : ps.length > 0
    · simp [part000_estimateBlazeFace, h]
    · simp [part000_estimateBlazeFace, h]
      cases cm
      · rfl
      · rfl
